import Mathlib

/-!
Shallow embedding of the Ethara HRMS backend (src/server.py) and proofs
about its behavior.

The document store is modelled as in-memory lists of records:
`find_one` is `List.find?` (first match), `insert_one` appends,
`update_one` keyed on the Mongo `_id` of a document returned by
`find_one` replaces the first record matching the same filter (the two
coincide because `_id` is unique per document and `find_one` returns the
first match), `delete_one` removes the first match and `delete_many`
filters.  Timestamps (`datetime.now(timezone.utc)`) and generated ids
(`uuid4`) are modelled by counters carried in the store state; the
wall-clock counter `now` advances on every state-changing request.
-/

namespace Ethara

/-- Whitespace stripped by Python's `str.strip()` (ASCII part; the claims
never exercise the unicode whitespace Python additionally strips). -/
def isPyWhitespace (c : Char) : Bool :=
  c == ' ' || c == '\t' || c == '\n' || c == '\r' || c == '\x0b' || c == '\x0c'

/-- Python's `v.strip()`: drop leading and trailing whitespace. -/
def pyStrip (s : String) : String :=
  String.mk (((s.toList.dropWhile isPyWhitespace).reverse.dropWhile isPyWhitespace).reverse)

/-- Character class `[a-zA-Z0-9._%+-]` of the email regex's local part. -/
def isLocalChar (c : Char) : Bool :=
  c.isAlpha || c.isDigit || c == '.' || c == '_' || c == '%' || c == '+' || c == '-'

/-- Character class `[a-zA-Z0-9.-]` of the email regex's domain part. -/
def isDomainChar (c : Char) : Bool :=
  c.isAlpha || c.isDigit || c == '.' || c == '-'

/-- `re.match(r"^[a-zA-Z0-9._%+-]+@[a-zA-Z0-9.-]+\.[a-zA-Z]{2,}$", s)` from
`EmployeeCreate.validate_email`.  Neither character class contains `@`, so a
match decomposes the string as `local '@' domain '.' tld` where the final
`'.'` is necessarily the last dot after the `@` (the tld part admits no dot).
Python's `$` also matches just before a single trailing newline, which the
`dropLast` handles. -/
def emailMatch (s : String) : Bool :=
  let cs0 := s.toList
  let cs := if cs0.getLast? == some '\n' then cs0.dropLast else cs0
  let l := cs.takeWhile (fun c => c != '@')
  match cs.dropWhile (fun c => c != '@') with
  | '@' :: rest =>
    let rev := rest.reverse
    let trev := rev.takeWhile (fun c => c != '.')
    match rev.dropWhile (fun c => c != '.') with
    | '.' :: drev =>
      !l.isEmpty && l.all isLocalChar &&
      !drev.isEmpty && drev.all isDomainChar &&
      decide (2 ≤ trev.length) && trev.all Char.isAlpha
    | _ => false
  | _ => false

/-- Request body of `POST /api/employees` (pydantic model `EmployeeCreate`),
before validation. -/
structure EmployeeCreate where
  employee_id : String
  full_name : String
  email : String
  department : String
deriving Repr, DecidableEq

/-- Stored employee document (pydantic model `Employee`).  `id` (uuid4) and
`created_at` (ISO timestamp) are modelled as naturals drawn from the store's
counters. -/
structure Employee where
  id : Nat
  employee_id : String
  full_name : String
  email : String
  department : String
  created_at : Nat
deriving Repr, DecidableEq

/-- Request body of `POST /api/attendance` (pydantic model
`AttendanceCreate`), before validation. -/
structure AttendanceCreate where
  employee_id : String
  date : String
  status : String
deriving Repr, DecidableEq

/-- Stored attendance document (pydantic model `AttendanceRecord`). -/
structure AttendanceRecord where
  id : Nat
  employee_id : String
  date : String
  status : String
  marked_at : Nat
deriving Repr, DecidableEq

/-- Error taxonomy of the API: pydantic validation failure (HTTP 422),
`HTTPException(409)` and `HTTPException(404)`. -/
inductive Err where
  | invalid (msg : String)
  | conflict (msg : String)
  | notFound (msg : String)
deriving Repr, DecidableEq

/-- Pydantic validation of `EmployeeCreate`: the `not_empty` validator on
`employee_id`, `full_name`, `department` (`if not v or not v.strip(): raise`,
then `return v.strip()`), and `validate_email` on `email` (regex match, then
`return v.strip()`).  `not v or not v.strip()` is equivalent to the
stripped value being empty.  Any failing field makes the request fail with
422. -/
def validateEmployeeCreate (e : EmployeeCreate) : Except Err EmployeeCreate :=
  if pyStrip e.employee_id = "" then .error (.invalid "Field is required")
  else if pyStrip e.full_name = "" then .error (.invalid "Field is required")
  else if pyStrip e.department = "" then .error (.invalid "Field is required")
  else if emailMatch e.email then
    .ok { employee_id := pyStrip e.employee_id, full_name := pyStrip e.full_name,
          email := pyStrip e.email, department := pyStrip e.department }
  else .error (.invalid "Invalid email format")

/-- Pydantic validation of `AttendanceCreate`: `not_empty` on all three
fields (returning the stripped value), then `validate_status` on the already
stripped `status` (`if v not in ["Present", "Absent"]: raise`). -/
def validateAttendanceCreate (a : AttendanceCreate) : Except Err AttendanceCreate :=
  if pyStrip a.employee_id = "" then .error (.invalid "Field is required")
  else if pyStrip a.date = "" then .error (.invalid "Field is required")
  else if pyStrip a.status = "" then .error (.invalid "Field is required")
  else if pyStrip a.status = "Present" ∨ pyStrip a.status = "Absent" then
    .ok { employee_id := pyStrip a.employee_id, date := pyStrip a.date,
          status := pyStrip a.status }
  else .error (.invalid "Status must be Present or Absent")

/-- The two MongoDB collections (`db.employees`, `db.attendance`) plus the
counters standing in for uuid generation and the UTC clock. -/
structure Store where
  employees : List Employee
  attendance : List AttendanceRecord
  nextId : Nat
  now : Nat
deriving Repr, DecidableEq

/-- The empty database. -/
def initStore : Store := { employees := [], attendance := [], nextId := 0, now := 0 }

/-- Filter used by `mark_attendance`'s `find_one`/upsert on the attendance
collection: match on the `(employee_id, date)` pair. -/
def pairMatch (eid d : String) (r : AttendanceRecord) : Bool :=
  r.employee_id == eid && r.date == d

/-- `update_one({"_id": existing["_id"]}, ...)` after
`find_one({"employee_id": ..., "date": ...})`: rewrite the first record
matching the filter, keep everything else. -/
def updateFirst (p : AttendanceRecord → Bool) (f : AttendanceRecord → AttendanceRecord) :
    List AttendanceRecord → List AttendanceRecord
  | [] => []
  | r :: rs => if p r then f r :: rs else r :: updateFirst p f rs

/-- `delete_one`: remove the first record matching the filter. -/
def removeFirst (p : Employee → Bool) : List Employee → List Employee
  | [] => []
  | e :: es => if p e then es else e :: removeFirst p es

/-- `POST /api/employees` (`create_employee`): validation, then the two
duplicate checks (employee_id first, then email), then insert. -/
def createEmployee (req : EmployeeCreate) (s : Store) : Except Err Employee × Store :=
  match validateEmployeeCreate req with
  | .error err => (.error err, s)
  | .ok emp =>
    if (s.employees.find? (fun e => e.employee_id == emp.employee_id)).isSome then
      (.error (.conflict "Employee ID already exists"), s)
    else if (s.employees.find? (fun e => e.email == emp.email)).isSome then
      (.error (.conflict "Email already exists"), s)
    else
      let e : Employee := { id := s.nextId, employee_id := emp.employee_id,
                            full_name := emp.full_name, email := emp.email,
                            department := emp.department, created_at := s.now }
      (.ok e, { s with employees := s.employees ++ [e],
                       nextId := s.nextId + 1, now := s.now + 1 })

/-- `DELETE /api/employees/{employee_id}` (`delete_employee`): `delete_one`
on the directory; 404 when nothing was deleted; otherwise cascade
`delete_many` on the attendance ledger. -/
def deleteEmployee (eid : String) (s : Store) : Except Err String × Store :=
  if (s.employees.find? (fun e => e.employee_id == eid)).isSome then
    (.ok "Employee deleted",
     { s with employees := removeFirst (fun e => e.employee_id == eid) s.employees,
              attendance := s.attendance.filter (fun r => !(r.employee_id == eid)),
              now := s.now + 1 })
  else (.error (.notFound "Employee not found"), s)

/-- Body of `mark_attendance`'s success responses: the record payload plus
the optional `"message"` key (`"Attendance updated"` on the update path;
the create path returns the bare `AttendanceRecord`, hence no message). -/
structure MarkResponse where
  record : AttendanceRecord
  message : Option String
deriving Repr, DecidableEq

/-- `POST /api/attendance` (`mark_attendance`): validation, employee
existence check (404), then upsert.  On the update path the database copy
gets `status` and a fresh `marked_at`, while the response is
`{**existing_record, "status": att.status, "message": "Attendance updated"}`
— i.e. the old record with only `status` overridden.  On the create path a
new record is inserted and returned bare. -/
def markAttendance (req : AttendanceCreate) (s : Store) : Except Err MarkResponse × Store :=
  match validateAttendanceCreate req with
  | .error err => (.error err, s)
  | .ok att =>
    if (s.employees.find? (fun e => e.employee_id == att.employee_id)).isSome then
      match s.attendance.find? (pairMatch att.employee_id att.date) with
      | some existing =>
        let att' := updateFirst (pairMatch att.employee_id att.date)
          (fun r => { r with status := att.status, marked_at := s.now }) s.attendance
        (.ok { record := { existing with status := att.status },
               message := some "Attendance updated" },
         { s with attendance := att', now := s.now + 1 })
      | none =>
        let rcd : AttendanceRecord := { id := s.nextId, employee_id := att.employee_id,
                                        date := att.date, status := att.status,
                                        marked_at := s.now }
        (.ok { record := rcd, message := none },
         { s with attendance := s.attendance ++ [rcd],
                  nextId := s.nextId + 1, now := s.now + 1 })
    else (.error (.notFound "Employee not found"), s)

/-- Numeric part of the `GET /api/dashboard` response (`dashboard`):
`total_employees`, `present_today`, `absent_today`, `unmarked_today`.
(`department_breakdown` and `recent_activity` are also in the response but
no claim concerns them.)  `unmarked_today` is a Python int, so the
subtraction is over `Int` before the `max` with 0. -/
structure DashboardCounts where
  total_employees : Nat
  present_today : Nat
  absent_today : Nat
  unmarked_today : Int
deriving Repr, DecidableEq

/-- `dashboard()`: count all employees, fetch today's attendance records
(capped at 5000 by `to_list(5000)`), count `"Present"` and `"Absent"`
statuses, and compute `max(total_employees - present - absent, 0)`.
`today` stands for `datetime.now(timezone.utc).strftime("%Y-%m-%d")`. -/
def dashboardCounts (today : String) (s : Store) : DashboardCounts :=
  let total := s.employees.length
  let todayRecords := (s.attendance.filter (fun r => r.date == today)).take 5000
  let present := (todayRecords.filter (fun r => r.status == "Present")).length
  let absent := (todayRecords.filter (fun r => r.status == "Absent")).length
  { total_employees := total, present_today := present, absent_today := absent,
    unmarked_today := max ((total : Int) - (present : Int) - (absent : Int)) 0 }

/-- One state-changing request (the read-only endpoints do not alter the
store). -/
inductive Op where
  | create (req : EmployeeCreate)
  | delete (eid : String)
  | mark (req : AttendanceCreate)
deriving Repr, DecidableEq

/-- State reached after one request. -/
def applyOp (s : Store) (o : Op) : Store :=
  match o with
  | .create req => (createEmployee req s).2
  | .delete eid => (deleteEmployee eid s).2
  | .mark req => (markAttendance req s).2

/-- State reached after a sequence of requests. -/
def runOps (ops : List Op) (s : Store) : Store := ops.foldl applyOp s

/-- Number of ledger records for one `(employee_id, date)` pair. -/
def countPair (s : Store) (eid d : String) : Nat :=
  (s.attendance.filter (pairMatch eid d)).length

/-- The ledger invariant: at most one record per `(employee_id, date)`. -/
def LedgerInv (s : Store) : Prop := ∀ eid d, countPair s eid d ≤ 1

/-- An employee on file, used by the concrete evaluations below. -/
def alice : Employee :=
  { id := 0, employee_id := "E1", full_name := "Alice", email := "alice@co.com",
    department := "Eng", created_at := 0 }

/-- A store whose directory holds exactly `alice`. -/
def storeWithAlice : Store :=
  { employees := [alice], attendance := [], nextId := 1, now := 1 }

/-- A create request reusing `alice`'s employee_id but with a malformed
email. -/
def dupIdBadEmailReq : EmployeeCreate :=
  { employee_id := "E1", full_name := "Bob", email := "notanemail", department := "Eng" }

/-- A create request reusing `alice`'s employee_id with all fields valid. -/
def dupIdValidReq : EmployeeCreate :=
  { employee_id := "E1", full_name := "Bob", email := "bob@co.com", department := "Eng" }

/-- A mark request whose status carries surrounding whitespace. -/
def paddedStatusReq : AttendanceCreate :=
  { employee_id := "E1", date := "2024-01-01", status := " Present " }

/-- A mark request with a status that is invalid even after trimming. -/
def lateStatusReq : AttendanceCreate :=
  { employee_id := "E1", date := "2024-01-01", status := "Late" }

/-- A valid create request for `alice`. -/
def aliceReq : EmployeeCreate :=
  { employee_id := "E1", full_name := "Alice", email := "alice@co.com",
    department := "Eng" }

/-- A valid mark request: `alice` Present on 2024-01-01. -/
def presentReq : AttendanceCreate :=
  { employee_id := "E1", date := "2024-01-01", status := "Present" }

/-- A valid mark request: `alice` Absent on 2024-01-01. -/
def absentReq : AttendanceCreate :=
  { employee_id := "E1", date := "2024-01-01", status := "Absent" }

/-- A valid mark request for a date with no record yet. -/
def newDayReq : AttendanceCreate :=
  { employee_id := "E1", date := "2024-01-02", status := "Present" }

/-- A store where `alice` was marked Present on 2024-01-01 at time 0 and the
clock has since advanced to 5. -/
def markedYesterdayStore : Store :=
  { employees := [alice],
    attendance := [{ id := 1, employee_id := "E1", date := "2024-01-01",
                     status := "Present", marked_at := 0 }],
    nextId := 2, now := 5 }

/-- C4 counterexample: a Create call whose employee_id collides with an
existing employee but whose email is malformed fails with 422 (pydantic
validation), not with 409 Conflict — so "fails with Conflict regardless of
the other field values" is false as stated. -/
theorem create_duplicate_claim_cex :
    (alice ∈ storeWithAlice.employees ∧ alice.employee_id = dupIdBadEmailReq.employee_id) ∧
    (createEmployee dupIdBadEmailReq storeWithAlice).1 =
      .error (.invalid "Invalid email format") ∧
    ∀ msg, (createEmployee dupIdBadEmailReq storeWithAlice).1 ≠ .error (.conflict msg) := by
  have hres : (createEmployee dupIdBadEmailReq storeWithAlice).1 =
      .error (.invalid "Invalid email format") := rfl
  refine ⟨by decide, hres, fun msg h => ?_⟩
  rw [hres] at h
  simp at h

/-- C4 (amended): for every Create call that passes field validation
(non-empty trimmed fields and well-formed email), if an existing employee
already has the validated employee_id or the validated email, the call
fails with 409 Conflict and the store is unchanged. -/
theorem create_duplicate_conflict (s : Store) (req v : EmployeeCreate)
    (hv : validateEmployeeCreate req = .ok v)
    (hdup : (∃ e ∈ s.employees, e.employee_id = v.employee_id) ∨
            (∃ e ∈ s.employees, e.email = v.email)) :
    (∃ msg, (createEmployee req s).1 = .error (.conflict msg)) ∧
    (createEmployee req s).2 = s := by
  unfold createEmployee
  rw [hv]
  dsimp only
  rcases hdup with ⟨e, he, heq⟩ | ⟨e, he, heq⟩
  · have hfind : (s.employees.find? (fun x => x.employee_id == v.employee_id)).isSome := by
      rw [List.find?_isSome]
      exact ⟨e, he, by simp [heq]⟩
    rw [if_pos hfind]
    exact ⟨⟨"Employee ID already exists", rfl⟩, rfl⟩
  · by_cases h1 : (s.employees.find? (fun x => x.employee_id == v.employee_id)).isSome = true
    · rw [if_pos h1]
      exact ⟨⟨"Employee ID already exists", rfl⟩, rfl⟩
    · have h2 : (s.employees.find? (fun x => x.email == v.email)).isSome := by
        rw [List.find?_isSome]
        exact ⟨e, he, by simp [heq]⟩
      rw [if_neg h1, if_pos h2]
      exact ⟨⟨"Email already exists", rfl⟩, rfl⟩

/-- Witness for C4's amended theorem: creating `dupIdValidReq` against
`storeWithAlice` is refused with a Conflict and the store is unchanged. -/
theorem create_duplicate_conflict_witness :
    (∃ msg, (createEmployee dupIdValidReq storeWithAlice).1 = .error (.conflict msg)) ∧
    (createEmployee dupIdValidReq storeWithAlice).2 = storeWithAlice :=
  create_duplicate_conflict storeWithAlice dupIdValidReq dupIdValidReq rfl
    (Or.inl ⟨alice, by decide, by decide⟩)

/-- C5 counterexample: the `not_empty` validator strips `status` before
`validate_status` runs, so the raw status `" Present "` — which is not
exactly the string `"Present"` or `"Absent"`, and is non-empty after
trimming, as are the other fields — is accepted, and a record is written. -/
theorem mark_invalid_status_claim_cex :
    (paddedStatusReq.status ≠ "Present" ∧ paddedStatusReq.status ≠ "Absent" ∧
     pyStrip paddedStatusReq.employee_id ≠ "" ∧ pyStrip paddedStatusReq.date ≠ "" ∧
     pyStrip paddedStatusReq.status ≠ "") ∧
    (markAttendance paddedStatusReq storeWithAlice).1 =
      .ok { record := { id := 1, employee_id := "E1", date := "2024-01-01",
                        status := "Present", marked_at := 1 }, message := none } ∧
    (markAttendance paddedStatusReq storeWithAlice).2.attendance =
      [{ id := 1, employee_id := "E1", date := "2024-01-01",
         status := "Present", marked_at := 1 }] :=
  ⟨by decide, rfl, rfl⟩

/-- C5 (amended): Mark fails with 422 when the status AFTER TRIMMING is not
exactly `"Present"` or `"Absent"`, or when any of employee_id, date, status
is empty after trimming; on such a failure the store is unchanged, so no
record is written. -/
theorem mark_invalid_rejected (s : Store) (a : AttendanceCreate)
    (h : (pyStrip a.status ≠ "Present" ∧ pyStrip a.status ≠ "Absent") ∨
         pyStrip a.employee_id = "" ∨ pyStrip a.date = "" ∨ pyStrip a.status = "") :
    (∃ msg, (markAttendance a s).1 = .error (.invalid msg)) ∧
    (markAttendance a s).2 = s := by
  have hval : ∃ msg, validateAttendanceCreate a = .error (.invalid msg) := by
    unfold validateAttendanceCreate
    by_cases h1 : pyStrip a.employee_id = ""
    · rw [if_pos h1]; exact ⟨_, rfl⟩
    · rw [if_neg h1]
      by_cases h2 : pyStrip a.date = ""
      · rw [if_pos h2]; exact ⟨_, rfl⟩
      · rw [if_neg h2]
        by_cases h3 : pyStrip a.status = ""
        · rw [if_pos h3]; exact ⟨_, rfl⟩
        · rw [if_neg h3]
          have h4 : ¬(pyStrip a.status = "Present" ∨ pyStrip a.status = "Absent") := by
            rcases h with ⟨hp, ha⟩ | h' | h' | h'
            · intro hc
              rcases hc with hc | hc
              · exact hp hc
              · exact ha hc
            · exact absurd h' h1
            · exact absurd h' h2
            · exact absurd h' h3
          rw [if_neg h4]; exact ⟨_, rfl⟩
  obtain ⟨msg, hmsg⟩ := hval
  unfold markAttendance
  rw [hmsg]
  exact ⟨⟨msg, rfl⟩, rfl⟩

/-- Witness for C5's amended theorem: status `"Late"` is rejected and the
store is untouched. -/
theorem mark_invalid_rejected_witness :
    (∃ msg, (markAttendance lateStatusReq storeWithAlice).1 = .error (.invalid msg)) ∧
    (markAttendance lateStatusReq storeWithAlice).2 = storeWithAlice :=
  mark_invalid_rejected storeWithAlice lateStatusReq (Or.inl ⟨by decide, by decide⟩)

/-- Rewriting the first record matching `p` makes it the first match of the
rewritten list, provided the rewrite preserves `p`. -/
theorem find?_updateFirst (p : AttendanceRecord → Bool) (f : AttendanceRecord → AttendanceRecord)
    (hf : ∀ r, p (f r) = p r) :
    ∀ (l : List AttendanceRecord) (r0 : AttendanceRecord), l.find? p = some r0 →
      (updateFirst p f l).find? p = some (f r0) := by
  intro l
  induction l with
  | nil => intro r0 h; simp [List.find?] at h
  | cons r rs ih =>
    intro r0 h
    by_cases hp : p r
    · rw [List.find?_cons_of_pos _ hp] at h
      injection h with h'
      subst h'
      unfold updateFirst
      rw [if_pos hp]
      exact List.find?_cons_of_pos _ (by rw [hf]; exact hp)
    · rw [List.find?_cons_of_neg _ hp] at h
      unfold updateFirst
      rw [if_neg hp, List.find?_cons_of_neg _ hp]
      exact ih r0 h

/-- C2 counterexample: re-marking `(E1, 2024-01-01)` at time 5 returns the
record with the OLD `marked_at` 0 (only the stored copy is refreshed to 5),
and a first-time mark returns the bare record with no "created" marker
(`message = none`). -/
theorem mark_response_claim_cex :
    markedYesterdayStore.now = 5 ∧
    (markAttendance absentReq markedYesterdayStore).1 =
      .ok { record := { id := 1, employee_id := "E1", date := "2024-01-01",
                        status := "Absent", marked_at := 0 },
            message := some "Attendance updated" } ∧
    (markAttendance absentReq markedYesterdayStore).2.attendance =
      [{ id := 1, employee_id := "E1", date := "2024-01-01",
         status := "Absent", marked_at := 5 }] ∧
    (markAttendance newDayReq markedYesterdayStore).1 =
      .ok { record := { id := 2, employee_id := "E1", date := "2024-01-02",
                        status := "Present", marked_at := 5 }, message := none } :=
  ⟨rfl, rfl, rfl, rfl⟩

/-- C2 (amended): for every validated Mark call on an existing employee —
if a record already exists for `(employee_id, date)`, the response is that
record with only `status` replaced by the new status (its `marked_at` is the
OLD value, not the current time) together with the message
"Attendance updated", while the STORED record gets the new status and a
`marked_at` refreshed to the current time; otherwise the response is the
newly created record (with `marked_at` set to the current time) and carries
no "created"/"updated" marker. -/
theorem mark_upsert_response (s : Store) (a v : AttendanceCreate)
    (hv : validateAttendanceCreate a = .ok v)
    (hemp : (s.employees.find? (fun e => e.employee_id == v.employee_id)).isSome) :
    (∀ r0, s.attendance.find? (pairMatch v.employee_id v.date) = some r0 →
      (markAttendance a s).1 =
        .ok { record := { r0 with status := v.status },
              message := some "Attendance updated" } ∧
      (markAttendance a s).2.attendance.find? (pairMatch v.employee_id v.date) =
        some { r0 with status := v.status, marked_at := s.now }) ∧
    (s.attendance.find? (pairMatch v.employee_id v.date) = none →
      (markAttendance a s).1 =
        .ok { record := { id := s.nextId, employee_id := v.employee_id, date := v.date,
                          status := v.status, marked_at := s.now }, message := none } ∧
      (markAttendance a s).2.attendance =
        s.attendance ++ [{ id := s.nextId, employee_id := v.employee_id, date := v.date,
                           status := v.status, marked_at := s.now }]) := by
  unfold markAttendance
  rw [hv]
  dsimp only
  rw [if_pos hemp]
  constructor
  · intro r0 hr0
    rw [hr0]
    dsimp only
    refine ⟨rfl, ?_⟩
    exact find?_updateFirst (pairMatch v.employee_id v.date)
      (fun r => { r with status := v.status, marked_at := s.now })
      (fun r => rfl) s.attendance r0 hr0
  · intro hnone
    rw [hnone]
    exact ⟨rfl, rfl⟩

/-- Witness for C2's amended theorem, on the update path of
`markedYesterdayStore`. -/
theorem mark_upsert_response_witness :
    (markAttendance absentReq markedYesterdayStore).1 =
      .ok { record := { id := 1, employee_id := "E1", date := "2024-01-01",
                        status := "Absent", marked_at := 0 },
            message := some "Attendance updated" } ∧
    (markAttendance absentReq markedYesterdayStore).2.attendance.find?
        (pairMatch "E1" "2024-01-01") =
      some { id := 1, employee_id := "E1", date := "2024-01-01",
             status := "Absent", marked_at := 5 } :=
  (mark_upsert_response markedYesterdayStore absentReq absentReq rfl (by decide)).1
    { id := 1, employee_id := "E1", date := "2024-01-01",
      status := "Present", marked_at := 0 } rfl

/-- `mark_attendance` never touches the employee directory. -/
theorem mark_employees_eq (a : AttendanceCreate) (s : Store) :
    (markAttendance a s).2.employees = s.employees := by
  unfold markAttendance
  split
  · rfl
  · split
    · split <;> rfl
    · rfl

/-- `create_employee` never touches the attendance ledger. -/
theorem create_attendance_eq (req : EmployeeCreate) (s : Store) :
    (createEmployee req s).2.attendance = s.attendance := by
  unfold createEmployee
  split
  · rfl
  · split
    · rfl
    · split <;> rfl

/-- Rewriting one record without changing the fields `q` inspects preserves
the number of `q`-matches. -/
theorem length_filter_updateFirst (q p : AttendanceRecord → Bool)
    (f : AttendanceRecord → AttendanceRecord) (hf : ∀ r, q (f r) = q r) :
    ∀ l : List AttendanceRecord,
      ((updateFirst p f l).filter q).length = (l.filter q).length := by
  intro l
  induction l with
  | nil => rfl
  | cons r rs ih =>
    unfold updateFirst
    by_cases hp : p r
    · rw [if_pos hp, List.filter_cons, List.filter_cons, hf r]
      by_cases hq : q r
      · rw [if_pos hq, if_pos hq]
        simp
      · rw [if_neg hq, if_neg hq]
    · rw [if_neg hp, List.filter_cons, List.filter_cons]
      by_cases hq : q r
      · rw [if_pos hq, if_pos hq]
        simp [ih]
      · rw [if_neg hq, if_neg hq]
        exact ih

/-- A pair has no ledger record exactly when the upsert's `find_one` comes
back empty. -/
theorem countPair_eq_zero_iff (s : Store) (eid d : String) :
    countPair s eid d = 0 ↔ s.attendance.find? (pairMatch eid d) = none := by
  unfold countPair
  rw [List.length_eq_zero, List.filter_eq_nil_iff, List.find?_eq_none]

/-- Cascade deletion can only shrink the count of a pair. -/
theorem countPair_delete_le (eid' : String) (s : Store) (eid d : String) :
    countPair (deleteEmployee eid' s).2 eid d ≤ countPair s eid d := by
  unfold deleteEmployee
  split
  · unfold countPair
    exact List.Sublist.length_le (List.Sublist.filter _ (List.filter_sublist _))
  · exact le_refl _

/-- `mark_attendance` preserves "at most one record" for every pair. -/
theorem countPair_mark_le (a : AttendanceCreate) (s : Store) (eid d : String)
    (h : countPair s eid d ≤ 1) : countPair (markAttendance a s).2 eid d ≤ 1 := by
  unfold markAttendance
  cases hval : validateAttendanceCreate a with
  | error e => exact h
  | ok att =>
    dsimp only
    by_cases hemp : (s.employees.find? (fun e => e.employee_id == att.employee_id)).isSome = true
    · rw [if_pos hemp]
      cases hfind : s.attendance.find? (pairMatch att.employee_id att.date) with
      | some existing =>
        dsimp only
        unfold countPair
        dsimp only
        rw [length_filter_updateFirst (pairMatch eid d)
          (pairMatch att.employee_id att.date)
          (fun r => { r with status := att.status, marked_at := s.now })
          (fun r => rfl)]
        exact h
      | none =>
        unfold countPair
        dsimp only
        rw [List.filter_append, List.length_append]
        by_cases hp : pairMatch eid d
            { id := s.nextId, employee_id := att.employee_id, date := att.date,
              status := att.status, marked_at := s.now } = true
        · have hp' := hp
          unfold pairMatch at hp'
          simp only [Bool.and_eq_true, beq_iff_eq] at hp'
          obtain ⟨he1, he2⟩ := hp'
          have hzero : (s.attendance.filter (pairMatch eid d)).length = 0 := by
            have hz := (countPair_eq_zero_iff s att.employee_id att.date).mpr hfind
            unfold countPair at hz
            rw [he1, he2] at hz
            exact hz
          rw [hzero, List.filter_cons_of_pos hp, List.filter_nil]
          simp
        · rw [List.filter_cons_of_neg hp, List.filter_nil, List.length_nil]
          unfold countPair at h
          omega
    · rw [if_neg hemp]
      exact h

/-- Every single request preserves the ledger invariant. -/
theorem ledgerInv_applyOp (s : Store) (o : Op) (h : LedgerInv s) :
    LedgerInv (applyOp s o) := by
  intro eid d
  cases o with
  | create req =>
    have : countPair (applyOp s (Op.create req)) eid d = countPair s eid d := by
      unfold applyOp countPair
      rw [create_attendance_eq]
    rw [this]
    exact h eid d
  | delete e => exact le_trans (countPair_delete_le e s eid d) (h eid d)
  | mark req => exact countPair_mark_le req s eid d (h eid d)

/-- Every request sequence preserves the ledger invariant. -/
theorem ledgerInv_runOps_aux (ops : List Op) :
    ∀ s, LedgerInv s → LedgerInv (runOps ops s) := by
  induction ops with
  | nil => intro s h; exact h
  | cons o os ih => intro s h; exact ih (applyOp s o) (ledgerInv_applyOp s o h)

/-- The empty database satisfies the ledger invariant. -/
theorem ledgerInv_init : LedgerInv initStore := by
  intro eid d
  exact Nat.zero_le 1

/-- A successful mark leaves exactly one ledger record for its pair. -/
theorem countPair_mark_one (a v : AttendanceCreate) (s : Store)
    (hv : validateAttendanceCreate a = .ok v)
    (hemp : (s.employees.find? (fun e => e.employee_id == v.employee_id)).isSome)
    (hinv : countPair s v.employee_id v.date ≤ 1) :
    countPair (markAttendance a s).2 v.employee_id v.date = 1 := by
  unfold markAttendance
  rw [hv]
  dsimp only
  rw [if_pos hemp]
  cases hfind : s.attendance.find? (pairMatch v.employee_id v.date) with
  | some existing =>
    dsimp only
    unfold countPair
    dsimp only
    rw [length_filter_updateFirst (pairMatch v.employee_id v.date)
      (pairMatch v.employee_id v.date)
      (fun r => { r with status := v.status, marked_at := s.now })
      (fun r => rfl)]
    have hne : countPair s v.employee_id v.date ≠ 0 := by
      rw [Ne, countPair_eq_zero_iff, hfind]
      simp
    unfold countPair at hinv hne
    omega
  | none =>
    unfold countPair
    dsimp only
    rw [List.filter_append, List.length_append]
    have hzero : (s.attendance.filter (pairMatch v.employee_id v.date)).length = 0 := by
      have hz := (countPair_eq_zero_iff s v.employee_id v.date).mpr hfind
      unfold countPair at hz
      exact hz
    have hp : pairMatch v.employee_id v.date
        { id := s.nextId, employee_id := v.employee_id, date := v.date,
          status := v.status, marked_at := s.now } = true := by
      unfold pairMatch
      simp
    rw [hzero, List.filter_cons_of_pos hp, List.filter_nil]
    simp

/-- After updating the first `p`-match in place, every `p`-match carries the
new status, provided there was at most one `p`-match. -/
theorem updateFirst_status_all (p : AttendanceRecord → Bool) (st : String) (t : Nat) :
    ∀ l : List AttendanceRecord, (l.filter p).length ≤ 1 →
      ∀ r ∈ updateFirst p (fun x => { x with status := st, marked_at := t }) l,
        p r = true → r.status = st := by
  intro l
  induction l with
  | nil =>
    intro _ r hr
    simp [updateFirst] at hr
  | cons x xs ih =>
    intro hlen r hr hp
    unfold updateFirst at hr
    by_cases hx : p x
    · rw [if_pos hx] at hr
      rcases List.mem_cons.mp hr with h | h
      · subst h; rfl
      · exfalso
        rw [List.filter_cons_of_pos hx] at hlen
        simp only [List.length_cons] at hlen
        have h0 : (xs.filter p).length = 0 := by omega
        have hnil := List.length_eq_zero.mp h0
        exact (List.filter_eq_nil_iff.mp hnil) r h hp
    · rw [if_neg hx] at hr
      rcases List.mem_cons.mp hr with h | h
      · subst h; exact absurd hp hx
      · rw [List.filter_cons_of_neg hx] at hlen
        exact ih hlen r h hp

/-- After a successful mark, every ledger record of the marked pair carries
the just-written status (assuming at most one record for the pair before). -/
theorem mark_statuses (a v : AttendanceCreate) (s : Store)
    (hv : validateAttendanceCreate a = .ok v)
    (hemp : (s.employees.find? (fun e => e.employee_id == v.employee_id)).isSome)
    (hinv : countPair s v.employee_id v.date ≤ 1) :
    ∀ r ∈ (markAttendance a s).2.attendance,
      pairMatch v.employee_id v.date r = true → r.status = v.status := by
  unfold markAttendance
  rw [hv]
  dsimp only
  rw [if_pos hemp]
  cases hfind : s.attendance.find? (pairMatch v.employee_id v.date) with
  | some existing =>
    dsimp only
    intro r hr hp
    exact updateFirst_status_all (pairMatch v.employee_id v.date) v.status s.now
      s.attendance hinv r hr hp
  | none =>
    dsimp only
    intro r hr hp
    rcases List.mem_append.mp hr with h | h
    · exact absurd hp ((List.find?_eq_none.mp hfind) r h)
    · have h' := List.mem_singleton.mp h
      subst h'
      rfl

/-- C1: every sequence of requests keeps the ledger at no more than one
record per (employee_id, date) pair, and two successive Mark calls for the
same pair leave the ledger with exactly one record for that pair, whose
status is the second call's status. -/
theorem attendance_pair_unique (ops : List Op) (a1 a2 v1 v2 : AttendanceCreate)
    (h1 : validateAttendanceCreate a1 = .ok v1)
    (h2 : validateAttendanceCreate a2 = .ok v2)
    (heid : v2.employee_id = v1.employee_id) (hdate : v2.date = v1.date)
    (hemp : ((runOps ops initStore).employees.find?
        (fun e => e.employee_id == v1.employee_id)).isSome) :
    LedgerInv (runOps ops initStore) ∧
    countPair (markAttendance a2 (markAttendance a1 (runOps ops initStore)).2).2
      v1.employee_id v1.date = 1 ∧
    ∀ r ∈ (markAttendance a2 (markAttendance a1 (runOps ops initStore)).2).2.attendance,
      pairMatch v1.employee_id v1.date r = true → r.status = v2.status := by
  have hInv : LedgerInv (runOps ops initStore) :=
    ledgerInv_runOps_aux ops initStore ledgerInv_init
  have hc1 : countPair (markAttendance a1 (runOps ops initStore)).2
      v1.employee_id v1.date = 1 :=
    countPair_mark_one a1 v1 (runOps ops initStore) h1 hemp
      (hInv v1.employee_id v1.date)
  have hemp1 : ((markAttendance a1 (runOps ops initStore)).2.employees.find?
      (fun e => e.employee_id == v2.employee_id)).isSome := by
    rw [mark_employees_eq, heid]
    exact hemp
  have hinv1 : countPair (markAttendance a1 (runOps ops initStore)).2
      v2.employee_id v2.date ≤ 1 := by
    rw [heid, hdate, hc1]
  have hc2 : countPair
      (markAttendance a2 (markAttendance a1 (runOps ops initStore)).2).2
      v2.employee_id v2.date = 1 :=
    countPair_mark_one a2 v2 (markAttendance a1 (runOps ops initStore)).2 h2 hemp1 hinv1
  refine ⟨hInv, ?_, ?_⟩
  · rw [← heid, ← hdate]
    exact hc2
  · intro r hr hp
    apply mark_statuses a2 v2 (markAttendance a1 (runOps ops initStore)).2 h2 hemp1 hinv1 r hr
    rw [heid, hdate]
    exact hp

/-- Witness for C1: create `alice`, mark (E1, 2024-01-01) Present then
Absent — one record remains for the pair and its status is "Absent". -/
theorem attendance_pair_unique_witness :
    LedgerInv (runOps [Op.create aliceReq] initStore) ∧
    countPair (markAttendance absentReq
        (markAttendance presentReq (runOps [Op.create aliceReq] initStore)).2).2
      "E1" "2024-01-01" = 1 ∧
    ∀ r ∈ (markAttendance absentReq
        (markAttendance presentReq (runOps [Op.create aliceReq] initStore)).2).2.attendance,
      pairMatch "E1" "2024-01-01" r = true → r.status = "Absent" :=
  attendance_pair_unique [Op.create aliceReq] presentReq absentReq presentReq absentReq
    rfl rfl rfl rfl (by decide)

/-- C3: the dashboard's `unmarked_today` is the saturating difference
`max(total_employees - present_today - absent_today, 0)` and hence is never
negative. -/
theorem dashboard_unmarked_saturating (s : Store) (today : String) :
    (dashboardCounts today s).unmarked_today =
      max (((dashboardCounts today s).total_employees : Int)
            - ((dashboardCounts today s).present_today : Int)
            - ((dashboardCounts today s).absent_today : Int)) 0 ∧
    0 ≤ (dashboardCounts today s).unmarked_today := by
  refine ⟨rfl, ?_⟩
  exact le_max_right _ _

end Ethara
